import Mathlib

/-!
Verification of the connection-lifecycle and OAuth-token subsystem of the
snowflake-mcp-server repository.

The Lean definitions below are a shallow embedding of the relevant Python
code:

* `get_snowflake_connection` and `return_connection_to_pool` from
  `snowflake_mcp_server.py` (connection pooling keyed by strings built from
  environment variables or live session identity);
* `OAuthTokenManager.refresh_token`, `get_access_token`, `has_valid_tokens`,
  `get_connection_parameters` and the callback handler `do_GET` from
  `oauth_handler.py`.

The Snowflake backend (network, SQL commands, HTTP token endpoint) is
modelled as an oracle record whose fields say which commands succeed;
connections are abstract numeric handles handed out by a counter, so that a
reused handle is distinguishable from a freshly created one.  Logging calls
in the Python code have no observable effect and are not modelled.
-/

namespace SnowflakeMCP

/-- Python truthiness of a value read with `os.getenv`: `None` (unset) and the
empty string are falsy. -/
def truthy : Option String → Bool
  | none => false
  | some s => s != ""

/-- Exception classes that can escape `get_snowflake_connection` /
`return_connection_to_pool`. -/
inductive PyError where
  | importErr
  | valueErr
  | permissionErr
  | databaseErr
  | otherErr
deriving Repr, DecidableEq

/-- Failure modes of `snowflake.connector.connect`, distinguished by the
message inspection in the `except` clauses of `get_snowflake_connection`
(`"Insufficient privileges"` / `"Authentication failed"` / other
`DatabaseError` / any other exception). -/
inductive ConnectFailure where
  | insufficientPrivileges
  | authenticationFailed
  | databaseOther
  | otherFailure
deriving Repr, DecidableEq

/-- The environment variables re-read by `get_snowflake_connection` via
`os.getenv` (no default supplied, so each is an optional string). -/
structure SnowEnv where
  account : Option String
  user : Option String
  password : Option String
  role : Option String
  warehouse : Option String
  database : Option String
  schemaName : Option String
deriving Repr, DecidableEq

/-- Live session identity as returned by
`SELECT CURRENT_ACCOUNT(), CURRENT_USER(), CURRENT_ROLE(), CURRENT_WAREHOUSE()`.
`CURRENT_WAREHOUSE()` is SQL NULL (here `none`) when the session has no
active warehouse; Python renders that `None` value as the text `"None"`
inside the release-side f-string key. -/
structure Identity where
  account : String
  user : String
  role : String
  warehouse : Option String
deriving Repr, DecidableEq

/-- Oracle for the Snowflake backend: which commands succeed.  Connections
are abstract `Nat` handles. -/
structure Backend where
  /-- whether `snowflake-connector-python` is importable -/
  snowflakeAvailable : Bool
  /-- does the `SELECT 1` liveness probe succeed on this pooled connection -/
  probeOk : Nat → Bool
  /-- failure of `snowflake.connector.connect`, `none` when it succeeds -/
  connectErr : Option ConnectFailure
  /-- does `USE ROLE <SNOWFLAKE_ROLE>` succeed -/
  useRoleOk : Bool
  /-- does `USE WAREHOUSE <name>` succeed for a given warehouse name -/
  useWarehouseOk : String → Bool
  /-- result rows of `SHOW WAREHOUSES` (first column); `none` when the
  command itself raises -/
  showWarehouses : Option (List String)
  /-- does the identity `SELECT` in `return_connection_to_pool` succeed -/
  identityOk : Nat → Bool
  /-- does `conn.close()` succeed -/
  closeOk : Nat → Bool

/-- The global `connection_pool` dict: pool key to list of idle handles. -/
abbrev Pool := List (String × List Nat)

/-- Update (or insert) the binding of key `k` in the pool dict. -/
def poolSet : Pool → String → List Nat → Pool
  | [], k, v => [(k, v)]
  | (k', v') :: rest, k, v =>
      if k' == k then (k, v) :: rest else (k', v') :: poolSet rest k v

/-- `MAX_POOL_SIZE = 5` from `snowflake_mcp_server.py`. -/
def MAX_POOL_SIZE : Nat := 5

/-- Global mutable state of the connection subsystem: the pool dict, the live
identity of every connection created so far, a counter handing out fresh
handles, and the handles on which `close()` has been attempted. -/
structure PoolState where
  pool : Pool
  connInfo : List (Nat × Identity)
  nextConn : Nat
  closed : List Nat
deriving Repr, DecidableEq

/-- State at process start: empty pool, no connections. -/
def initState : PoolState := ⟨[], [], 0, []⟩

/-- Acquire-side pool key:
`conn_key = f"{ACCOUNT}_{USER}_{ROLE}"`, with `f"_{WAREHOUSE}"` appended
only when `SNOWFLAKE_WAREHOUSE` is truthy. -/
def connKeyAcquire (env : SnowEnv) : String :=
  let base := env.account.getD "" ++ "_" ++ env.user.getD "" ++ "_" ++ env.role.getD ""
  if truthy env.warehouse then base ++ "_" ++ env.warehouse.getD "" else base

/-- Release-side pool key:
`conn_key = f"{account}_{user}_{role}_{warehouse}"` built from the live
session identity; a NULL warehouse prints as the literal text `"None"`. -/
def connKeyRelease (ident : Identity) : String :=
  ident.account ++ "_" ++ ident.user ++ "_" ++ ident.role ++ "_" ++
    (match ident.warehouse with
     | some w => w
     | none => "None")

/-- Creation path of `get_snowflake_connection`: `snowflake.connector.connect`
followed by session initialization.  `USE ROLE` failure raises
`PermissionError`; `USE WAREHOUSE` failure triggers the `SHOW WAREHOUSES`
fallback loop (skip the configured name, take the first alternative that
succeeds, give up silently otherwise); database/schema selection and the
`ALTER SESSION` parameters only log on failure and change nothing observable
here.  A fresh handle is drawn from the counter and its live identity
recorded. -/
def createConnection (be : Backend) (env : SnowEnv) (st : PoolState) :
    Except PyError (Nat × PoolState) :=
  match be.connectErr with
  | some .insufficientPrivileges => .error .permissionErr
  | some .authenticationFailed => .error .valueErr
  | some .databaseOther => .error .databaseErr
  | some .otherFailure => .error .otherErr
  | none =>
    if ¬ be.useRoleOk then .error .permissionErr
    else
      let c := st.nextConn
      let wh : Option String :=
        if truthy env.warehouse then
          let w := env.warehouse.getD ""
          if be.useWarehouseOk w then some w
          else ((be.showWarehouses.getD []).filter (fun x => x != w)).find?
                 (fun x => be.useWarehouseOk x)
        else none
      .ok (c, { st with
                  nextConn := st.nextConn + 1,
                  connInfo := (c, ⟨env.account.getD "", env.user.getD "",
                                   env.role.getD "", wh⟩) :: st.connInfo })

/-- Shallow embedding of `get_snowflake_connection`: validate required
environment variables, compute the acquire-side key, try to pop (from the
end, `list.pop()`) and probe one pooled connection, otherwise fall through
to `createConnection`.  A failed probe closes the popped handle and falls
through as well. -/
def get_snowflake_connection (be : Backend) (env : SnowEnv) (st : PoolState) :
    Except PyError (Nat × PoolState) :=
  if ¬ be.snowflakeAvailable then .error .importErr
  else if ¬ (truthy env.account ∧ truthy env.user ∧ truthy env.password ∧
             truthy env.role) then .error .valueErr
  else
    let key := connKeyAcquire env
    let l := (st.pool.lookup key).getD []
    match l.getLast? with
    | some conn =>
        let st1 := { st with pool := poolSet st.pool key l.dropLast }
        if be.probeOk conn then .ok (conn, st1)
        else createConnection be env { st1 with closed := conn :: st1.closed }
    | none => createConnection be env st

/-- The `try:` body of `return_connection_to_pool`: query the live identity,
build the release-side key, append (`list.append`, at the end) when below
`MAX_POOL_SIZE`, otherwise close the connection.  An `.error` result stands
for an exception escaping the body into the `except` clause. -/
def returnTryBody (be : Backend) (st : PoolState) (c : Nat) :
    Except PyError PoolState :=
  if ¬ be.identityOk c then .error .databaseErr
  else
    match st.connInfo.lookup c with
    | none => .error .databaseErr
    | some ident =>
      let key := connKeyRelease ident
      let cur := (st.pool.lookup key).getD []
      if cur.length < MAX_POOL_SIZE then
        .ok { st with pool := poolSet st.pool key (cur ++ [c]) }
      else
        if be.closeOk c then .ok { st with closed := c :: st.closed }
        else .error .otherErr

/-- Shallow embedding of `return_connection_to_pool`.  The result type is
`Except PyError PoolState` so that "this function raises" is expressible;
the `except` clause closes the connection inside a nested `try` whose own
failure is swallowed, so every branch ends in `.ok`. -/
def return_connection_to_pool (be : Backend) (st : PoolState)
    (conn : Option Nat) : Except PyError PoolState :=
  match conn with
  | none => .ok st
  | some c =>
    if ¬ be.snowflakeAvailable then .ok st
    else
      match returnTryBody be st c with
      | .ok st' => .ok st'
      | .error _ => .ok { st with closed := c :: st.closed }

/-- Run `return_connection_to_pool` as a state transformer (it never raises,
as proved below, so the error branch is dead). -/
def releaseRun (be : Backend) (st : PoolState) (c : Nat) : PoolState :=
  match return_connection_to_pool be st (some c) with
  | .ok st' => st'
  | .error _ => st

/-- Number of idle connections pooled under key `k`. -/
def poolLen (st : PoolState) (k : String) : Nat :=
  ((st.pool.lookup k).getD []).length

/-! ### OAuth token manager (`oauth_handler.py`) -/

/-- The `self.tokens` dict of `OAuthTokenManager`, restricted to the keys the
code reads.  `none` models an absent key; the empty dict is the all-`none`
record (in particular `not self.tokens` implies `access_token = none`). -/
structure Tokens where
  access_token : Option String
  refresh_token : Option String
  expires_at : Option Nat
  token_type : Option String
deriving Repr, DecidableEq

/-- JSON body of a successful token-endpoint response (`response.json()`);
every field is optional in the code, which uses `.get` with defaults. -/
structure TokenResponse where
  access_token : Option String
  refresh_token : Option String
  expires_in : Option Nat
  token_type : Option String
deriving Repr, DecidableEq

/-- Oracle for the OAuth environment: the current wall clock (`time.time()`)
and the outcome of the refresh POST (`none` models a `RequestException`,
including `raise_for_status` on a backend rejection). -/
structure OAuthEnv where
  now : Nat
  refreshResult : Option TokenResponse
deriving Repr, DecidableEq

/-- Token dict built from a refresh response: `expires_at = now +
token_data.get('expires_in', 3600)`, and the previously stored refresh token
is kept when the response omits one. -/
def refreshedTokens (now : Nat) (old : Tokens) (resp : TokenResponse) :
    Tokens :=
  { access_token := resp.access_token
    refresh_token :=
      match resp.refresh_token, old.refresh_token with
      | none, some r => some r
      | r, _ => r
    expires_at := some (now + resp.expires_in.getD 3600)
    token_type := resp.token_type }

/-- Shallow embedding of `OAuthTokenManager.refresh_token`.  Returns the
boolean result, the updated `self.tokens`, and the number of HTTP POSTs
made.  `_save_tokens` (file I/O) has no observable effect here. -/
def refresh_token (env : OAuthEnv) (t : Tokens) : Bool × Tokens × Nat :=
  match t.refresh_token with
  | none => (false, t, 0)
  | some _ =>
    match env.refreshResult with
    | none => (false, t, 1)
    | some resp => (true, refreshedTokens env.now t resp, 1)

/-- Shallow embedding of `OAuthTokenManager.get_access_token`.  Returns the
optional token, the updated `self.tokens`, and the number of calls made to
`refresh_token`. -/
def get_access_token (env : OAuthEnv) (t : Tokens) :
    Option String × Tokens × Nat :=
  if t.access_token.isNone then (none, t, 0)
  else if env.now > t.expires_at.getD 0 then
    match refresh_token env t with
    | (false, t', _) => (none, t', 1)
    | (true, t', _) => (t'.access_token, t', 1)
  else (t.access_token, t, 0)

/-- Shallow embedding of `OAuthTokenManager.has_valid_tokens`: an expired
access token still counts as valid when a refresh token is stored. -/
def has_valid_tokens (env : OAuthEnv) (t : Tokens) : Bool :=
  if t.access_token.isNone then false
  else if env.now > t.expires_at.getD 0 then t.refresh_token.isSome
  else true

/-- The dict returned by `OAuthTokenManager.get_connection_parameters`
(`none` models the empty dict `{}`).  The `token` field is
`self.tokens.get("access_token")`, hence itself optional. -/
structure ConnParams where
  token : Option String
  authenticator : String
deriving Repr, DecidableEq

/-- Shallow embedding of `OAuthTokenManager.get_connection_parameters`.
Returns the parameter dict, the updated `self.tokens`, and the number of
calls made to `refresh_token`.  Note that on the valid-tokens path it reads
`self.tokens.get("access_token")` directly instead of calling
`get_access_token`. -/
def get_connection_parameters (env : OAuthEnv) (t : Tokens) :
    Option ConnParams × Tokens × Nat :=
  if ¬ has_valid_tokens env t then
    if t.refresh_token.isSome then
      match refresh_token env t with
      | (false, t', _) => (none, t', 1)
      | (true, t', _) => (some ⟨t'.access_token, "oauth"⟩, t', 1)
    else (none, t, 0)
  else (some ⟨t.access_token, "oauth"⟩, t, 0)

/-! ### OAuth callback handler (`setup_oauth_callback_server.do_GET`) -/

/-- A parsed callback request: the URL path and the first value of each
query parameter the handler reads (`parse_qs` lists, indexed `[0]`). -/
structure CallbackRequest where
  path : String
  state : Option String
  code : Option String
  errorParam : Option String
deriving Repr, DecidableEq

/-- Python `str.startswith`, expressed over the character lists of the two
strings (computable in the kernel, unlike `String.startsWith`). -/
def startswith (s pre : String) : Bool := pre.data.isPrefixOf s.data

/-- Shallow embedding of `OAuthCallbackHandler.do_GET`.  `issuedState` is the
`state` value produced by `get_authorization_url`; `exchangeOk` is the oracle
for `token_manager.exchange_code_for_token`.  Returns the HTTP status sent
and whether the code exchange was invoked. -/
def do_GET (issuedState : String) (exchangeOk : String → Bool)
    (req : CallbackRequest) : Nat × Bool :=
  if startswith req.path "/oauth/callback" then
    if req.state ≠ some issuedState then (400, false)
    else if req.errorParam.isSome then (400, false)
    else
      match req.code with
      | none => (400, false)
      | some c => if exchangeOk c then (200, true) else (500, true)
  else (404, false)

/-! ### Concrete fixtures used by witnesses and counterexamples -/

/-- A backend where every command succeeds and `SHOW WAREHOUSES` is empty. -/
def beOk : Backend :=
  ⟨true, fun _ => true, none, true, fun _ => true, some [], fun _ => true,
   fun _ => true⟩

/-- Environment with no default warehouse configured. -/
def envNoWh : SnowEnv :=
  ⟨some "A", some "U", some "P", some "R", none, none, none⟩

/-- Environment whose default warehouse is `"W"`. -/
def envWh : SnowEnv :=
  ⟨some "A", some "U", some "P", some "R", some "W", none, none⟩

/-- Backend whose identity query in `return_connection_to_pool` fails. -/
def beIdFail : Backend :=
  ⟨true, fun _ => true, none, true, fun _ => true, some [], fun _ => false,
   fun _ => true⟩

/-- Backend where `USE ROLE` fails and everything else succeeds. -/
def beRoleFail : Backend :=
  ⟨true, fun _ => true, none, false, fun _ => true, some [], fun _ => true,
   fun _ => true⟩

/-- Backend where the configured warehouse `"W"` is not usable but `"Y"` is,
and `SHOW WAREHOUSES` lists `["W", "X", "Y"]`. -/
def beFallback : Backend :=
  ⟨true, fun _ => true, none, true, fun s => s == "Y", some ["W", "X", "Y"],
   fun _ => true, fun _ => true⟩

/-- An expired token set holding a refresh token. -/
def tokExpired : Tokens := ⟨some "old", some "rt", some 10, none⟩

/-- A refresh response that omits the refresh token. -/
def respNew : TokenResponse := ⟨some "new", none, some 100, some "bearer"⟩

/-- OAuth environment at time 11 where the refresh POST succeeds. -/
def envRefreshOk : OAuthEnv := ⟨11, some respNew⟩

/-- OAuth environment at time 11 where the refresh POST is rejected. -/
def envRefreshFail : OAuthEnv := ⟨11, none⟩

/-- A callback request carrying a state value that was never issued. -/
def reqBadState : CallbackRequest :=
  ⟨"/oauth/callback", some "S2", some "c", none⟩

/-- Scenario harness: acquire, release, acquire again, all from a fresh
process state, and report the two handles returned by the two `acquire`
calls (`none` when any step raises). -/
def cycle2 (be : Backend) (env : SnowEnv) : Option (Nat × Nat) :=
  match get_snowflake_connection be env initState with
  | .error _ => none
  | .ok (c1, st1) =>
    match return_connection_to_pool be st1 (some c1) with
    | .error _ => none
    | .ok st2 =>
      match get_snowflake_connection be env st2 with
      | .error _ => none
      | .ok (c2, _) => some (c1, c2)

/-- Scenario harness: the pool state after one acquire / release round trip
from a fresh process state (`none` when any step raises). -/
def acquireReleaseState (be : Backend) (env : SnowEnv) : Option PoolState :=
  match get_snowflake_connection be env initState with
  | .error _ => none
  | .ok (c, st1) =>
    match return_connection_to_pool be st1 (some c) with
    | .error _ => none
    | .ok st2 => some st2

/-- Scenario harness: the state and handles produced by `n` consecutive
`acquire` calls from a fresh process state (failed calls change nothing). -/
def acquireMany (be : Backend) (env : SnowEnv) : Nat → PoolState × List Nat
  | 0 => (initState, [])
  | n + 1 =>
    let (st, cs) := acquireMany be env n
    match get_snowflake_connection be env st with
    | .ok (c, st') => (st', cs ++ [c])
    | .error _ => (st, cs)

/-- Scenario for the pool-capacity claim: acquire `MAX_POOL_SIZE + 1 = 6`
connections for the same key, then release all six. -/
def scenarioC4 : PoolState :=
  let (st, cs) := acquireMany beOk envWh 6
  cs.foldl (releaseRun beOk) st

/-! ## Theorems -/

/-- The two claim-relevant properties of `poolSet`: looking up the key that
was just set yields the new value. -/
theorem lookup_poolSet_self (p : Pool) (k : String) (v : List Nat) :
    (poolSet p k v).lookup k = some v := by
  induction p with
  | nil => simp [poolSet, List.lookup]
  | cons hd tl ih =>
    obtain ⟨ka, va⟩ := hd
    by_cases h : ka = k
    · simp [poolSet, h, List.lookup]
    · have h2 : (ka == k) = false := beq_eq_false_iff_ne.mpr h
      have h3 : (k == ka) = false := beq_eq_false_iff_ne.mpr (Ne.symm h)
      simp [poolSet, h2, List.lookup, h3, ih]

/-- Looking up any other key after `poolSet` is unchanged. -/
theorem lookup_poolSet_ne (p : Pool) (k k' : String) (v : List Nat)
    (h : k' ≠ k) : (poolSet p k v).lookup k' = p.lookup k' := by
  induction p with
  | nil => simp [poolSet, List.lookup, beq_eq_false_iff_ne.mpr h]
  | cons hd tl ih =>
    obtain ⟨ka, va⟩ := hd
    by_cases hk : ka = k
    · subst hk
      simp [poolSet, List.lookup, beq_eq_false_iff_ne.mpr h, beq_self_eq_true]
    · cases hq : k' == ka <;>
        simp [poolSet, beq_eq_false_iff_ne.mpr hk, List.lookup, hq, ih]

/-- A successful `try:` body of `return_connection_to_pool` keeps every
per-key idle list within `MAX_POOL_SIZE` (it appends only below capacity). -/
theorem returnTryBody_pool_le (be : Backend) (st : PoolState) (c : Nat)
    (st' : PoolState) (hok : returnTryBody be st c = .ok st') (k : String)
    (h : poolLen st k ≤ MAX_POOL_SIZE) : poolLen st' k ≤ MAX_POOL_SIZE := by
  unfold returnTryBody at hok
  by_cases hid : be.identityOk c
  · simp only [hid, not_true_eq_false, if_false] at hok
    cases hl : st.connInfo.lookup c with
    | none => rw [hl] at hok; simp at hok
    | some ident =>
      rw [hl] at hok
      simp only at hok
      by_cases hlen :
          ((st.pool.lookup (connKeyRelease ident)).getD []).length <
            MAX_POOL_SIZE
      · rw [if_pos hlen] at hok
        simp only [Except.ok.injEq] at hok
        subst hok
        by_cases hk : k = connKeyRelease ident
        · subst hk
          simp only [poolLen, lookup_poolSet_self, Option.getD_some,
            List.length_append, List.length_singleton]
          omega
        · simpa [poolLen, lookup_poolSet_ne _ _ _ _ hk] using h
      · rw [if_neg hlen] at hok
        by_cases hcl : be.closeOk c
        · simp only [hcl, if_true, Except.ok.injEq] at hok
          subst hok
          simpa [poolLen] using h
        · simp [hcl] at hok
  · simp [hid] at hok

/-- One `release` step never grows any per-key idle list past
`MAX_POOL_SIZE`. -/
theorem poolLen_releaseRun_le (be : Backend) (st : PoolState) (c : Nat)
    (k : String) (h : poolLen st k ≤ MAX_POOL_SIZE) :
    poolLen (releaseRun be st c) k ≤ MAX_POOL_SIZE := by
  unfold releaseRun return_connection_to_pool
  cases hav : be.snowflakeAvailable with
  | false =>
    simp only [hav, Bool.false_eq_true, not_false_eq_true, if_true]
    exact h
  | true =>
    simp only [hav, not_true_eq_false, if_false]
    cases htb : returnTryBody be st c with
    | ok st' =>
      simp only
      exact returnTryBody_pool_le be st c st' htb k h
    | error e =>
      simp only
      simpa [poolLen] using h

/-- Any sequence of `release` steps keeps every per-key idle list within
`MAX_POOL_SIZE`. -/
theorem poolLen_foldl_releases_le (be : Backend) (cs : List Nat)
    (st : PoolState) (h : ∀ k, poolLen st k ≤ MAX_POOL_SIZE) (k : String) :
    poolLen (cs.foldl (releaseRun be) st) k ≤ MAX_POOL_SIZE := by
  induction cs generalizing st with
  | nil => simpa using h k
  | cons c cs ih =>
    simp only [List.foldl_cons]
    exact ih (releaseRun be st c) (fun k' => poolLen_releaseRun_le be st c k' (h k'))

/-- C4: after any sequence of `return_connection_to_pool` operations the
idle list for every pool key stays within the fixed capacity
`MAX_POOL_SIZE = 5`; in particular acquiring and releasing six connections
for the same key retains exactly five idle connections and closes the sixth
instead of pooling it. -/
theorem claim4_pool_capacity :
    (∀ (be : Backend) (st : PoolState) (cs : List Nat),
      (∀ k, poolLen st k ≤ MAX_POOL_SIZE) →
      ∀ k, poolLen (cs.foldl (releaseRun be) st) k ≤ MAX_POOL_SIZE) ∧
    (poolLen scenarioC4 "A_U_R_W" = MAX_POOL_SIZE ∧
     scenarioC4.pool = [("A_U_R_W", [0, 1, 2, 3, 4])] ∧
     scenarioC4.closed = [5]) := by
  refine ⟨fun be st cs h k => poolLen_foldl_releases_le be cs st h k, ?_, ?_, ?_⟩
  · decide
  · decide
  · decide

/-- Witness for C4: the capacity bound instantiated on the concrete
six-connection scenario. -/
theorem claim4_witness :
    poolLen
      ([0, 1, 2, 3, 4, 5].foldl (releaseRun beOk) (acquireMany beOk envWh 6).1)
      "A_U_R_W" ≤ MAX_POOL_SIZE :=
  claim4_pool_capacity.1 beOk (acquireMany beOk envWh 6).1 [0, 1, 2, 3, 4, 5]
    (fun k => by
      have hp : (acquireMany beOk envWh 6).1.pool = [] := by decide
      simp [poolLen, hp, List.lookup])
    "A_U_R_W"

/-- C8: `return_connection_to_pool` never propagates an exception: for every
backend behavior, state and connection value the embedded function returns
`.ok`, and whenever the `try:` body raises (identity query failure, or a
failing `close()` on the full-pool path) the handler closes the connection
and swallows the error, leaving the pool untouched. -/
theorem claim8_release_never_raises (be : Backend) (st : PoolState)
    (conn : Option Nat) :
    (∃ st', return_connection_to_pool be st conn = .ok st') ∧
    (∀ c e, conn = some c → be.snowflakeAvailable = true →
      returnTryBody be st c = .error e →
      return_connection_to_pool be st conn =
        .ok { st with closed := c :: st.closed }) := by
  constructor
  · cases conn with
    | none => exact ⟨st, rfl⟩
    | some c =>
      by_cases hav : be.snowflakeAvailable
      · cases htb : returnTryBody be st c with
        | ok st' => exact ⟨st', by simp [return_connection_to_pool, hav, htb]⟩
        | error e =>
          exact ⟨{ st with closed := c :: st.closed },
            by simp [return_connection_to_pool, hav, htb]⟩
      · exact ⟨st, by simp [return_connection_to_pool, hav]⟩
  · intro c e hc hav htb
    subst hc
    simp [return_connection_to_pool, hav, htb]

/-- Witness for C8: a failing identity query on a concrete connection makes
`release` close it and return normally. -/
theorem claim8_witness :
    (∃ st', return_connection_to_pool beIdFail initState (some 0) = .ok st') ∧
    return_connection_to_pool beIdFail initState (some 0) =
      .ok { initState with closed := [0] } :=
  ⟨(claim8_release_never_raises beIdFail initState (some 0)).1,
   (claim8_release_never_raises beIdFail initState (some 0)).2 0
     .databaseErr rfl rfl rfl⟩

/-- C2: when the configured default warehouse cannot be selected on a fresh
connection, `get_snowflake_connection` still succeeds for every behavior of
the warehouse oracle: the session warehouse ends up being the first
alternative from `SHOW WAREHOUSES` (skipping the configured name) that
succeeds, or none when the list is exhausted or the command fails, and no
error is propagated. -/
theorem claim2_warehouse_fallback_nonfatal (be : Backend) (st : PoolState)
    (a u p r w : String) (ha : a ≠ "") (hu : u ≠ "") (hpw : p ≠ "")
    (hr : r ≠ "") (hw : w ≠ "") (hav : be.snowflakeAvailable = true)
    (hconn : be.connectErr = none) (hrole : be.useRoleOk = true)
    (hwh : be.useWarehouseOk w = false)
    (hpool : ((st.pool.lookup (connKeyAcquire
        ⟨some a, some u, some p, some r, some w, none, none⟩)).getD []) = []) :
    get_snowflake_connection be
        ⟨some a, some u, some p, some r, some w, none, none⟩ st =
      .ok (st.nextConn,
        { st with
            nextConn := st.nextConn + 1,
            connInfo := (st.nextConn,
              ⟨a, u, r,
               ((be.showWarehouses.getD []).filter (fun x => x != w)).find?
                 (fun x => be.useWarehouseOk x)⟩) :: st.connInfo }) := by
  simp [get_snowflake_connection, truthy, bne_iff_ne, ha, hu, hpw, hr, hw,
    hav, hpool, createConnection, hconn, hrole, hwh]

/-- Witness for C2: `"W"` is unusable, `SHOW WAREHOUSES` lists
`["W", "X", "Y"]`, only `"Y"` is usable, and acquisition succeeds with the
session warehouse `"Y"`. -/
theorem claim2_witness :
    get_snowflake_connection beFallback envWh initState =
      .ok (0, { pool := [],
                connInfo := [(0, ⟨"A", "U", "R", some "Y"⟩)],
                nextConn := 1, closed := [] }) :=
  claim2_warehouse_fallback_nonfatal beFallback initState "A" "U" "P" "R" "W"
    (by decide) (by decide) (by decide) (by decide) (by decide)
    rfl rfl rfl (by decide) rfl

/-- C3: when `USE ROLE` fails on a freshly created backend connection,
`get_snowflake_connection` raises `PermissionError` and returns no
connection. -/
theorem claim3_role_failure_permission_error (be : Backend) (st : PoolState)
    (env : SnowEnv) (hacc : truthy env.account = true)
    (husr : truthy env.user = true) (hpwd : truthy env.password = true)
    (hrl : truthy env.role = true) (hav : be.snowflakeAvailable = true)
    (hconn : be.connectErr = none) (hrole : be.useRoleOk = false)
    (hpool : ((st.pool.lookup (connKeyAcquire env)).getD []) = []) :
    get_snowflake_connection be env st = .error .permissionErr := by
  simp [get_snowflake_connection, hacc, husr, hpwd, hrl, hav, hpool,
    createConnection, hconn, hrole]

/-- Witness for C3 at a concrete backend rejecting `USE ROLE`. -/
theorem claim3_witness :
    get_snowflake_connection beRoleFail envNoWh initState =
      .error .permissionErr :=
  claim3_role_failure_permission_error beRoleFail initState envNoWh
    (by decide) (by decide) (by decide) (by decide) rfl rfl rfl rfl

/-- C1 counterexample: with a valid Principal that has no default warehouse
configured, and a backend on which every command (including every liveness
probe) succeeds, the two acquire calls of an acquire / release / acquire /
release / acquire sequence return different handles (the released connection
was keyed under `"A_U_R_None"` while acquire looks under `"A_U_R"`), so the
claim as stated is false. -/
theorem claim1_counterexample :
    beOk.probeOk 0 = true ∧
    cycle2 beOk envNoWh = some (0, 1) ∧ (0 : Nat) ≠ 1 := by
  refine ⟨rfl, by decide, by decide⟩

/-- C1 amended: when a default warehouse is configured and selecting it
succeeds at session initialization (and the connect, role-set, liveness
probe and identity queries all succeed), two sequential acquire / release /
acquire cycles return the same underlying connection handle: the first
acquire creates handle 0 and the second acquire returns handle 0 again from
the pool instead of creating handle 1. -/
theorem claim1_reuse_with_selected_warehouse (be : Backend)
    (a u p r w : String) (ha : a ≠ "") (hu : u ≠ "") (hpw : p ≠ "")
    (hr : r ≠ "") (hw : w ≠ "") (hav : be.snowflakeAvailable = true)
    (hconn : be.connectErr = none) (hrole : be.useRoleOk = true)
    (hwh : be.useWarehouseOk w = true) (hprobe : ∀ c, be.probeOk c = true)
    (hid : ∀ c, be.identityOk c = true) :
    cycle2 be ⟨some a, some u, some p, some r, some w, none, none⟩ =
      some (0, 0) := by
  have h1 : get_snowflake_connection be
      ⟨some a, some u, some p, some r, some w, none, none⟩ initState =
      .ok (0, ⟨[], [(0, ⟨a, u, r, some w⟩)], 1, []⟩) := by
    simp [get_snowflake_connection, initState, truthy, bne_iff_ne, ha, hu,
      hpw, hr, hw, hav, createConnection, hconn, hrole, hwh, List.lookup]
  have hkey : connKeyRelease ⟨a, u, r, some w⟩ =
      connKeyAcquire ⟨some a, some u, some p, some r, some w, none, none⟩ := by
    simp [connKeyRelease, connKeyAcquire, truthy, bne_iff_ne, hw]
  have h2 : return_connection_to_pool be
      ⟨[], [(0, ⟨a, u, r, some w⟩)], 1, []⟩ (some 0) =
      .ok ⟨[(connKeyAcquire ⟨some a, some u, some p, some r, some w, none,
              none⟩, [0])], [(0, ⟨a, u, r, some w⟩)], 1, []⟩ := by
    rw [← hkey]
    simp [return_connection_to_pool, hav, returnTryBody, hid, List.lookup,
      MAX_POOL_SIZE, poolSet]
  have h3 : get_snowflake_connection be
      ⟨some a, some u, some p, some r, some w, none, none⟩
      ⟨[(connKeyAcquire ⟨some a, some u, some p, some r, some w, none,
          none⟩, [0])], [(0, ⟨a, u, r, some w⟩)], 1, []⟩ =
      .ok (0, ⟨[(connKeyAcquire ⟨some a, some u, some p, some r, some w,
                  none, none⟩, [])], [(0, ⟨a, u, r, some w⟩)], 1, []⟩) := by
    simp [get_snowflake_connection, hav, truthy, bne_iff_ne, ha, hu, hpw,
      hr, hw, List.lookup, poolSet, hprobe]
  simp only [cycle2, h1, h2, h3]

/-- Witness for C1 (amended) at the all-success backend and the environment
whose warehouse is `"W"`. -/
theorem claim1_witness :
    cycle2 beOk ⟨some "A", some "U", some "P", some "R", some "W", none,
      none⟩ = some (0, 0) :=
  claim1_reuse_with_selected_warehouse beOk "A" "U" "P" "R" "W"
    (by decide) (by decide) (by decide) (by decide) (by decide)
    rfl rfl rfl rfl (fun c => rfl) (fun c => rfl)

/-- C9: the acquire-side key is `account_user_role` with `_warehouse`
appended only when a default warehouse is configured, while the release-side
key always has four components, rendering a NULL session warehouse as the
text `"None"`.  Consequently, with no default warehouse configured, the
released connection is stored under a key different from the acquire-side
key of the same environment, the acquire-side slot stays empty, and the next
acquire creates a fresh handle instead of reusing the released one. -/
theorem claim9_key_mismatch_no_reuse (be : Backend) (a u p r : String)
    (ha : a ≠ "") (hu : u ≠ "") (hpw : p ≠ "") (hr : r ≠ "")
    (hav : be.snowflakeAvailable = true) (hconn : be.connectErr = none)
    (hrole : be.useRoleOk = true) (hid : ∀ c, be.identityOk c = true) :
    connKeyAcquire ⟨some a, some u, some p, some r, none, none, none⟩ =
      a ++ "_" ++ u ++ "_" ++ r ∧
    (∀ w : String, w ≠ "" →
      connKeyAcquire ⟨some a, some u, some p, some r, some w, none, none⟩ =
        a ++ "_" ++ u ++ "_" ++ r ++ "_" ++ w) ∧
    (∀ ident : Identity, ident.warehouse = none →
      connKeyRelease ident =
        ident.account ++ "_" ++ ident.user ++ "_" ++ ident.role ++ "_" ++
          "None") ∧
    connKeyRelease ⟨a, u, r, none⟩ ≠
      connKeyAcquire ⟨some a, some u, some p, some r, none, none, none⟩ ∧
    (acquireReleaseState be
        ⟨some a, some u, some p, some r, none, none, none⟩).map
      (fun st => st.pool.lookup (connKeyRelease ⟨a, u, r, none⟩)) =
      some (some [0]) ∧
    (acquireReleaseState be
        ⟨some a, some u, some p, some r, none, none, none⟩).map
      (fun st => st.pool.lookup
        (connKeyAcquire ⟨some a, some u, some p, some r, none, none, none⟩)) =
      some none ∧
    cycle2 be ⟨some a, some u, some p, some r, none, none, none⟩ =
      some (0, 1) := by
  have hne : connKeyRelease ⟨a, u, r, none⟩ ≠
      connKeyAcquire ⟨some a, some u, some p, some r, none, none, none⟩ := by
    intro h
    have hlen := congrArg String.length h
    have hu1 : ("_" : String).length = 1 := rfl
    have hn4 : ("None" : String).length = 4 := rfl
    simp [connKeyRelease, connKeyAcquire, truthy, String.length_append,
      hu1, hn4] at hlen
    omega
  have h1 : get_snowflake_connection be
      ⟨some a, some u, some p, some r, none, none, none⟩ initState =
      .ok (0, ⟨[], [(0, ⟨a, u, r, none⟩)], 1, []⟩) := by
    simp [get_snowflake_connection, initState, truthy, bne_iff_ne, ha, hu,
      hpw, hr, hav, createConnection, hconn, hrole, List.lookup]
  have h2 : return_connection_to_pool be
      ⟨[], [(0, ⟨a, u, r, none⟩)], 1, []⟩ (some 0) =
      .ok ⟨[(connKeyRelease ⟨a, u, r, none⟩, [0])],
           [(0, ⟨a, u, r, none⟩)], 1, []⟩ := by
    simp [return_connection_to_pool, hav, returnTryBody, hid, List.lookup,
      MAX_POOL_SIZE, poolSet]
  have hlook : List.lookup
      (connKeyAcquire ⟨some a, some u, some p, some r, none, none, none⟩)
      [(connKeyRelease ⟨a, u, r, none⟩, ([0] : List Nat))] = none := by
    simp [List.lookup, beq_eq_false_iff_ne.mpr (Ne.symm hne)]
  have h3 : get_snowflake_connection be
      ⟨some a, some u, some p, some r, none, none, none⟩
      ⟨[(connKeyRelease ⟨a, u, r, none⟩, [0])],
       [(0, ⟨a, u, r, none⟩)], 1, []⟩ =
      .ok (1, ⟨[(connKeyRelease ⟨a, u, r, none⟩, [0])],
               [(1, ⟨a, u, r, none⟩), (0, ⟨a, u, r, none⟩)], 2, []⟩) := by
    simp [get_snowflake_connection, hav, truthy, bne_iff_ne, ha, hu, hpw,
      hr, hlook, createConnection, hconn, hrole]
  refine ⟨?_, ?_, ?_, hne, ?_, ?_, ?_⟩
  · simp [connKeyAcquire, truthy]
  · intro w hw
    simp [connKeyAcquire, truthy, bne_iff_ne, hw]
  · intro ident hwid
    simp [connKeyRelease, hwid]
  · simp only [acquireReleaseState, h1, h2, Option.map_some]
    simp [List.lookup]
  · simp only [acquireReleaseState, h1, h2, Option.map_some]
    simp [hlook]
  · simp only [cycle2, h1, h2, h3]

/-- Witness for C9: the no-reuse consequence at the all-success backend. -/
theorem claim9_witness : cycle2 beOk envNoWh = some (0, 1) :=
  (claim9_key_mismatch_no_reuse beOk "A" "U" "P" "R"
    (by decide) (by decide) (by decide) (by decide)
    rfl rfl rfl (fun c => rfl)).2.2.2.2.2.2

/-- C5: a callback request to `/oauth/callback` whose `state` parameter is
absent or different from the issued state is answered with HTTP 400 and
`exchange_code_for_token` is not invoked; conversely the exchange is only
ever invoked when the state comparison succeeds. -/
theorem claim5_state_checked_before_exchange (issued : String)
    (exOk : String → Bool) (req : CallbackRequest) :
    (startswith req.path "/oauth/callback" = true →
      req.state ≠ some issued →
      do_GET issued exOk req = (400, false)) ∧
    ((do_GET issued exOk req).2 = true → req.state = some issued) := by
  constructor
  · intro hp hs
    simp [do_GET, hp, hs]
  · intro h
    by_cases hp : startswith req.path "/oauth/callback"
    · by_cases hs : req.state = some issued
      · exact hs
      · simp [do_GET, hp, hs] at h
    · simp [do_GET, hp] at h

/-- Witness for C5 at a concrete mismatching request. -/
theorem claim5_witness :
    do_GET "S1" (fun _ => true) reqBadState = (400, false) :=
  (claim5_state_checked_before_exchange "S1" (fun _ => true) reqBadState).1
    (by decide) (by decide)

/-- C6: on an expired token set holding a refresh token, `get_access_token`
makes exactly one `refresh_token` call and returns the freshly obtained
access token when the refresh succeeds; when the refresh fails it returns
`none` (without raising, the embedding is total); and when no access token
is stored it returns `none` with zero refresh calls. -/
theorem claim6_get_access_token_refresh (env : OAuthEnv) (t : Tokens)
    (rt : String) (hexp : env.now > t.expires_at.getD 0)
    (hrt : t.refresh_token = some rt) :
    (∀ resp, t.access_token.isSome = true → env.refreshResult = some resp →
      get_access_token env t =
        (resp.access_token, refreshedTokens env.now t resp, 1)) ∧
    (t.access_token.isSome = true → env.refreshResult = none →
      get_access_token env t = (none, t, 1)) ∧
    (t.access_token = none → get_access_token env t = (none, t, 0)) := by
  refine ⟨?_, ?_, ?_⟩
  · intro resp hacc hres
    have h1 : t.access_token.isNone = false := by
      cases hAT : t.access_token
      · rw [hAT] at hacc; simp at hacc
      · simp
    simp [get_access_token, h1, hexp, refresh_token, hrt, hres, refreshedTokens]
  · intro hacc hres
    have h1 : t.access_token.isNone = false := by
      cases hAT : t.access_token
      · rw [hAT] at hacc; simp at hacc
      · simp
    simp [get_access_token, h1, hexp, refresh_token, hrt, hres]
  · intro hacc
    simp [get_access_token, hacc]

/-- Witness for C6: expired token set at time 11, refresh succeeds and the
new access token `"new"` is returned after exactly one refresh call. -/
theorem claim6_witness :
    get_access_token envRefreshOk tokExpired =
      (some "new", ⟨some "new", some "rt", some 111, some "bearer"⟩, 1) :=
  (claim6_get_access_token_refresh envRefreshOk tokExpired "rt"
    (by decide) rfl).1 respNew rfl rfl

/-- C7: `refresh_token` returns `false` with no HTTP POST when no refresh
token is stored; on a successful refresh whose response omits a refresh
token it keeps the previously stored one and returns `true`; on a backend
rejection it returns `false` and leaves the stored token set unchanged. -/
theorem claim7_refresh_token_behavior (env : OAuthEnv) (t : Tokens) :
    (t.refresh_token = none → refresh_token env t = (false, t, 0)) ∧
    (∀ rt resp, t.refresh_token = some rt → env.refreshResult = some resp →
      resp.refresh_token = none →
      refresh_token env t = (true, refreshedTokens env.now t resp, 1) ∧
      (refreshedTokens env.now t resp).refresh_token = some rt) ∧
    (∀ rt, t.refresh_token = some rt → env.refreshResult = none →
      refresh_token env t = (false, t, 1)) := by
  refine ⟨?_, ?_, ?_⟩
  · intro h
    simp [refresh_token, h]
  · intro rt resp hrt hres homit
    constructor
    · simp [refresh_token, hrt, hres]
    · simp [refreshedTokens, homit, hrt]
  · intro rt hrt hres
    simp [refresh_token, hrt, hres]

/-- Witness for C7: a successful refresh whose response omits the refresh
token keeps the stored `"rt"` and returns `true` after one POST. -/
theorem claim7_witness :
    refresh_token envRefreshOk tokExpired =
      (true, ⟨some "new", some "rt", some 111, some "bearer"⟩, 1) ∧
    (refreshedTokens 11 tokExpired respNew).refresh_token = some "rt" :=
  (claim7_refresh_token_behavior envRefreshOk tokExpired).2.1 "rt" respNew
    rfl rfl rfl

/-- C10: on a token set whose access token is expired but which holds a
refresh token, `has_valid_tokens` reports `true`, so
`get_connection_parameters` returns the raw stored (expired) access token
with zero `refresh_token` calls instead of going through
`get_access_token`. -/
theorem claim10_connection_parameters_raw_token (env : OAuthEnv)
    (t : Tokens) (a rt : String) (ha : t.access_token = some a)
    (hrt : t.refresh_token = some rt)
    (hexp : env.now > t.expires_at.getD 0) :
    has_valid_tokens env t = true ∧
    get_connection_parameters env t = (some ⟨some a, "oauth"⟩, t, 0) := by
  have hv : has_valid_tokens env t = true := by
    simp [has_valid_tokens, ha, hexp, hrt]
  refine ⟨hv, ?_⟩
  simp [get_connection_parameters, hv, ha]

/-- Witness for C10: the expired access token `"old"` is handed out verbatim
even though the refresh POST would have failed. -/
theorem claim10_witness :
    has_valid_tokens envRefreshFail tokExpired = true ∧
    get_connection_parameters envRefreshFail tokExpired =
      (some ⟨some "old", "oauth"⟩, tokExpired, 0) :=
  claim10_connection_parameters_raw_token envRefreshFail tokExpired
    "old" "rt" rfl rfl (by decide)

end SnowflakeMCP
